import Mathlib

/-!
Verification of the bria accounting/settlement core against its
natural-language specification.  The Rust source is shallowly embedded:
the declarative ledger templates become Lean lists of entry records, the
SQL repositories become pure functions over lists of rows, and the
event-sourced entities become folds over event lists.
-/

namespace Bria

/-! ### Ledger template engine (src/ledger/templates) -/

/-- Entry direction, as in the sqlx-ledger template DSL. -/
inductive Direction
  | DEBIT
  | CREDIT
deriving DecidableEq, Repr

/-- The three accounting layers. -/
inductive Layer
  | ENCUMBERED
  | PENDING
  | SETTLED
deriving DecidableEq, Repr

/-- An account-id expression in a template entry: either a per-wallet
account passed as a parameter (`params.<name>` in the DSL) or a fixed
system account (`uuid('<CONST>')` in the DSL, named by its constant). -/
inductive AccountExpr
  | walletParam (name : String)
  | systemConst (name : String)
deriving DecidableEq, Repr

/-- A units expression over the template's decimal parameters. -/
inductive UnitsExpr
  | param (name : String)
  | add (a b : UnitsExpr)
  | sub (a b : UnitsExpr)
deriving DecidableEq, Repr

/-- Evaluate a units expression under a decimal parameter valuation. -/
def evalUnits (p : String → ℚ) : UnitsExpr → ℚ
  | .param n => p n
  | .add a b => evalUnits p a + evalUnits p b
  | .sub a b => evalUnits p a - evalUnits p b

/-- One `EntryInput` of a sqlx-ledger template. -/
structure EntryInput where
  entry_type : String
  currency : String
  account_id : AccountExpr
  direction : Direction
  layer : Layer
  units : UnitsExpr
deriving DecidableEq, Repr

open UnitsExpr in
/-- The 16 entries of the `CREATE_BATCH` template, transliterated from
`CreateBatch::init` in src/ledger/templates/create_batch.rs. -/
def createBatchEntries : List EntryInput := [
  -- LOGICAL
  { entry_type := "CREATE_BATCH_LOGICAL_ENCUMBERED_DR", currency := "BTC",
    account_id := .walletParam "logical_outgoing_account_id",
    direction := .DEBIT, layer := .ENCUMBERED, units := param "total_spent" },
  { entry_type := "CREATE_BATCH_LOGICAL_ENCUMBERED_CR", currency := "BTC",
    account_id := .systemConst "LOGICAL_OUTGOING_ID",
    direction := .CREDIT, layer := .ENCUMBERED, units := param "total_spent" },
  { entry_type := "CREATE_BATCH_LOGICAL_PENDING_CR", currency := "BTC",
    account_id := .walletParam "logical_outgoing_account_id",
    direction := .CREDIT, layer := .PENDING, units := param "total_spent" },
  { entry_type := "CREATE_BATCH_LOGICAL_PENDING_DR", currency := "BTC",
    account_id := .systemConst "LOGICAL_OUTGOING_ID",
    direction := .DEBIT, layer := .PENDING, units := param "total_spent" },
  { entry_type := "CREATE_BATCH_LOGICAL_SETTLED_DR", currency := "BTC",
    account_id := .walletParam "logical_at_rest_account_id",
    direction := .DEBIT, layer := .SETTLED,
    units := add (param "total_spent") (param "fees") },
  { entry_type := "CREATE_BATCH_LOGICAL_SETTLED_CR", currency := "BTC",
    account_id := .systemConst "LOGICAL_AT_REST_ID",
    direction := .CREDIT, layer := .SETTLED,
    units := add (param "total_spent") (param "fees") },
  -- FEES
  { entry_type := "CREATE_BATCH_FEE_PENDING_DR", currency := "BTC",
    account_id := .walletParam "onchain_fee_account_id",
    direction := .DEBIT, layer := .PENDING, units := param "fees" },
  { entry_type := "CREATE_BATCH_FEE_PENDING_CR", currency := "BTC",
    account_id := .systemConst "ONCHAIN_FEE_ID",
    direction := .CREDIT, layer := .PENDING, units := param "fees" },
  { entry_type := "CREATE_BATCH_FEE_ENCUMBERED_CR", currency := "BTC",
    account_id := .walletParam "onchain_fee_account_id",
    direction := .CREDIT, layer := .ENCUMBERED, units := param "reserved_fees" },
  { entry_type := "CREATE_BATCH_FEE_ENCUMBERED_DR", currency := "BTC",
    account_id := .systemConst "ONCHAIN_FEE_ID",
    direction := .DEBIT, layer := .ENCUMBERED, units := param "reserved_fees" },
  -- UTXO
  { entry_type := "CREATE_BATCH_UTXO_PENDING_DR", currency := "BTC",
    account_id := .systemConst "ONCHAIN_UTXO_OUTGOING_ID",
    direction := .DEBIT, layer := .PENDING,
    units := sub (param "total_in") (param "fees") },
  { entry_type := "CREATE_BATCH_UTXO_PENDING_CR", currency := "BTC",
    account_id := .walletParam "onchain_outgoing_account_id",
    direction := .CREDIT, layer := .PENDING,
    units := sub (param "total_in") (param "fees") },
  { entry_type := "CREATE_BATCH_UTXO_SETTLED_DR", currency := "BTC",
    account_id := .walletParam "onchain_at_rest_account_id",
    direction := .DEBIT, layer := .SETTLED, units := param "total_in" },
  { entry_type := "CREATE_BATCH_UTXO_SETTLED_CR", currency := "BTC",
    account_id := .systemConst "ONCHAIN_UTXO_AT_REST_ID",
    direction := .CREDIT, layer := .SETTLED, units := param "total_in" },
  { entry_type := "CREATE_BATCH_UTXO_ENCUMBERED_DR", currency := "BTC",
    account_id := .systemConst "ONCHAIN_UTXO_INCOMING_ID",
    direction := .DEBIT, layer := .ENCUMBERED,
    units := sub (sub (param "total_in") (param "fees")) (param "total_spent") },
  { entry_type := "CREATE_BATCH_UTXO_ENCUMBERED_CR", currency := "BTC",
    account_id := .walletParam "onchain_income_account_id",
    direction := .CREDIT, layer := .ENCUMBERED,
    units := sub (sub (param "total_in") (param "fees")) (param "total_spent") }
]

open UnitsExpr in
/-- The 16 entries of the `BATCH_CREATED` template, transliterated from
`BatchCreated::init` in src/ledger/templates/batch_created.rs. -/
def batchCreatedEntries : List EntryInput := [
  -- LOGICAL
  { entry_type := "BATCH_CREATED_LOGICAL_ENCUMBERED_DR", currency := "BTC",
    account_id := .walletParam "logical_outgoing_account_id",
    direction := .DEBIT, layer := .ENCUMBERED,
    units := sub (sub (param "total_utxo_in") (param "change")) (param "fees") },
  { entry_type := "BATCH_CREATED_LOGICAL_ENCUMBERED_CR", currency := "BTC",
    account_id := .systemConst "LOGICAL_OUTGOING_ID",
    direction := .CREDIT, layer := .ENCUMBERED,
    units := sub (sub (param "total_utxo_in") (param "change")) (param "fees") },
  { entry_type := "BATCH_CREATED_LOGICAL_PENDING_CR", currency := "BTC",
    account_id := .walletParam "logical_outgoing_account_id",
    direction := .CREDIT, layer := .PENDING,
    units := sub (sub (param "total_utxo_in") (param "change")) (param "fees") },
  { entry_type := "BATCH_CREATED_LOGICAL_PENDING_DR", currency := "BTC",
    account_id := .systemConst "LOGICAL_OUTGOING_ID",
    direction := .DEBIT, layer := .PENDING,
    units := sub (sub (param "total_utxo_in") (param "change")) (param "fees") },
  { entry_type := "BATCH_CREATED_LOGICAL_SETTLED_DR", currency := "BTC",
    account_id := .walletParam "logical_at_rest_account_id",
    direction := .DEBIT, layer := .SETTLED,
    units := sub (param "total_utxo_in") (param "change") },
  { entry_type := "BATCH_CREATED_LOGICAL_SETTLED_CR", currency := "BTC",
    account_id := .systemConst "LOGICAL_AT_REST_ID",
    direction := .CREDIT, layer := .SETTLED,
    units := sub (param "total_utxo_in") (param "change") },
  -- FEES
  { entry_type := "BATCH_CREATED_FEE_PENDING_DR", currency := "BTC",
    account_id := .walletParam "onchain_fee_account_id",
    direction := .DEBIT, layer := .PENDING, units := param "fees" },
  { entry_type := "BATCH_CREATED_FEE_PENDING_CR", currency := "BTC",
    account_id := .systemConst "ONCHAIN_FEE_ID",
    direction := .CREDIT, layer := .PENDING, units := param "fees" },
  { entry_type := "BATCH_CREATED_FEE_ENCUMBERED_CR", currency := "BTC",
    account_id := .walletParam "onchain_fee_account_id",
    direction := .CREDIT, layer := .ENCUMBERED, units := param "encumbered_fees" },
  { entry_type := "BATCH_CREATED_FEE_ENCUMBERED_DR", currency := "BTC",
    account_id := .systemConst "ONCHAIN_FEE_ID",
    direction := .DEBIT, layer := .ENCUMBERED, units := param "encumbered_fees" },
  -- UTXO
  { entry_type := "BATCH_CREATED_UTXO_PENDING_DR", currency := "BTC",
    account_id := .systemConst "ONCHAIN_UTXO_OUTGOING_ID",
    direction := .DEBIT, layer := .PENDING,
    units := sub (param "total_utxo_in") (param "fees") },
  { entry_type := "BATCH_CREATED_UTXO_PENDING_CR", currency := "BTC",
    account_id := .walletParam "onchain_outgoing_account_id",
    direction := .CREDIT, layer := .PENDING,
    units := sub (param "total_utxo_in") (param "fees") },
  { entry_type := "BATCH_CREATED_UTXO_SETTLED_DR", currency := "BTC",
    account_id := .walletParam "onchain_at_rest_account_id",
    direction := .DEBIT, layer := .SETTLED, units := param "total_utxo_in" },
  { entry_type := "BATCH_CREATED_UTXO_SETTLED_CR", currency := "BTC",
    account_id := .systemConst "ONCHAIN_UTXO_AT_REST_ID",
    direction := .CREDIT, layer := .SETTLED, units := param "total_utxo_in" },
  { entry_type := "BATCH_CREATED_UTXO_ENCUMBERED_DR", currency := "BTC",
    account_id := .systemConst "ONCHAIN_UTXO_INCOMING_ID",
    direction := .DEBIT, layer := .ENCUMBERED, units := param "change" },
  { entry_type := "BATCH_CREATED_UTXO_ENCUMBERED_CR", currency := "BTC",
    account_id := .walletParam "onchain_income_account_id",
    direction := .CREDIT, layer := .ENCUMBERED, units := param "change" }
]

/-- Sum of the evaluated units of the entries with the given currency,
direction and layer. -/
def dirLayerTotal (entries : List EntryInput) (p : String → ℚ)
    (c : String) (d : Direction) (l : Layer) : ℚ :=
  ((entries.filter (fun e => e.currency = c ∧ e.direction = d ∧ e.layer = l)).map
    (fun e => evalUnits p e.units)).sum

open UnitsExpr in
/-- The `CREATE_BATCH` entry table exactly as printed in the spec
(account, direction, layer, currency, units), row by row. -/
def createBatchSpecRows : List (AccountExpr × Direction × Layer × String × UnitsExpr) := [
  (.walletParam "logical_outgoing_account_id", .DEBIT, .ENCUMBERED, "BTC", param "total_spent"),
  (.systemConst "LOGICAL_OUTGOING_ID", .CREDIT, .ENCUMBERED, "BTC", param "total_spent"),
  (.walletParam "logical_outgoing_account_id", .CREDIT, .PENDING, "BTC", param "total_spent"),
  (.systemConst "LOGICAL_OUTGOING_ID", .DEBIT, .PENDING, "BTC", param "total_spent"),
  (.walletParam "logical_at_rest_account_id", .DEBIT, .SETTLED, "BTC",
    add (param "total_spent") (param "fees")),
  (.systemConst "LOGICAL_AT_REST_ID", .CREDIT, .SETTLED, "BTC",
    add (param "total_spent") (param "fees")),
  (.walletParam "onchain_fee_account_id", .DEBIT, .PENDING, "BTC", param "fees"),
  (.systemConst "ONCHAIN_FEE_ID", .CREDIT, .PENDING, "BTC", param "fees"),
  (.walletParam "onchain_fee_account_id", .CREDIT, .ENCUMBERED, "BTC", param "reserved_fees"),
  (.systemConst "ONCHAIN_FEE_ID", .DEBIT, .ENCUMBERED, "BTC", param "reserved_fees"),
  (.systemConst "ONCHAIN_UTXO_OUTGOING_ID", .DEBIT, .PENDING, "BTC",
    sub (param "total_in") (param "fees")),
  (.walletParam "onchain_outgoing_account_id", .CREDIT, .PENDING, "BTC",
    sub (param "total_in") (param "fees")),
  (.walletParam "onchain_at_rest_account_id", .DEBIT, .SETTLED, "BTC", param "total_in"),
  (.systemConst "ONCHAIN_UTXO_AT_REST_ID", .CREDIT, .SETTLED, "BTC", param "total_in"),
  (.systemConst "ONCHAIN_UTXO_INCOMING_ID", .DEBIT, .ENCUMBERED, "BTC",
    sub (sub (param "total_in") (param "fees")) (param "total_spent")),
  (.walletParam "onchain_income_account_id", .CREDIT, .ENCUMBERED, "BTC",
    sub (sub (param "total_in") (param "fees")) (param "total_spent"))
]

/-- Project an entry to the view the spec's table shows:
(account, direction, layer, currency, units expression). -/
def entryView (e : EntryInput) : AccountExpr × Direction × Layer × String × UnitsExpr :=
  (e.account_id, e.direction, e.layer, e.currency, e.units)

/-- Project an entry to (account, direction, layer, evaluated units);
the view under which the two batch templates are compared. -/
def entryEval (p : String → ℚ) (e : EntryInput) : AccountExpr × Direction × Layer × ℚ :=
  (e.account_id, e.direction, e.layer, evalUnits p e.units)

/-- A concrete parameter valuation satisfying the side conditions of the
template-equivalence theorem (total_in = total_utxo_in = 10,
change = 4, fees = 1, total_spent = 5, reserved = encumbered fees = 2). -/
def sampleValuation : String → ℚ := fun s =>
  if s = "total_in" then 10
  else if s = "total_utxo_in" then 10
  else if s = "total_spent" then 5
  else if s = "change" then 4
  else if s = "fees" then 1
  else if s = "reserved_fees" then 2
  else if s = "encumbered_fees" then 2
  else 0

/-! ### UTXO repository (src/utxo/repo.rs) -/

/-- Ledger transaction ids (UUIDs) are abstracted as numbers. -/
abbrev LedgerTransactionId := Nat

/-- A bitcoin outpoint. -/
structure OutPoint where
  txid : String
  vout : Nat
deriving DecidableEq, Repr

/-- Keychain kind: external = income, internal = change. -/
inductive KeychainKind
  | external
  | internal
deriving DecidableEq, Repr

/-- The `NewUtxo` value passed to `UtxoRepo::persist_utxo`, with the
fields the INSERT binds. -/
structure NewUtxo where
  wallet_id : Nat
  keychain_id : Nat
  outpoint : OutPoint
  sats_per_vbyte_when_created : ℚ
  kind : KeychainKind
  address_idx : Nat
  value : ℤ
  address : String
  script_hex : String
  spent : Bool
  income_pending_ledger_tx_id : LedgerTransactionId
deriving DecidableEq, Repr

/-- A persisted row of the `bria_utxos` table. -/
structure UtxoRow where
  wallet_id : Nat
  keychain_id : Nat
  tx_id : String
  vout : Nat
  sats_per_vbyte_when_created : ℚ
  kind : KeychainKind
  address_idx : Nat
  value : ℤ
  address : String
  script_hex : String
  spent : Bool
  pending_ledger_tx_id : LedgerTransactionId
deriving DecidableEq, Repr

/-- The conflict key of the INSERT: `(keychain_id, tx_id, vout)`. -/
def UtxoRow.key (r : UtxoRow) : Nat × String × Nat :=
  (r.keychain_id, r.tx_id, r.vout)

/-- The conflict key of a `NewUtxo`. -/
def NewUtxo.key (u : NewUtxo) : Nat × String × Nat :=
  (u.keychain_id, u.outpoint.txid, u.outpoint.vout)

/-- The row the INSERT writes: all `NewUtxo` fields, with
`pending_ledger_tx_id = income_pending_ledger_tx_id`. -/
def rowOfNewUtxo (u : NewUtxo) : UtxoRow :=
  { wallet_id := u.wallet_id, keychain_id := u.keychain_id,
    tx_id := u.outpoint.txid, vout := u.outpoint.vout,
    sats_per_vbyte_when_created := u.sats_per_vbyte_when_created,
    kind := u.kind, address_idx := u.address_idx, value := u.value,
    address := u.address, script_hex := u.script_hex, spent := u.spent,
    pending_ledger_tx_id := u.income_pending_ledger_tx_id }

/-- `UtxoRepo::persist_utxo`: `INSERT ... ON CONFLICT (keychain_id,
tx_id, vout) DO NOTHING`; returns the income-pending ledger tx id iff a
row was actually inserted (`rows_affected() > 0`). -/
def persist_utxo (table : List UtxoRow) (u : NewUtxo) :
    List UtxoRow × Option LedgerTransactionId :=
  if table.any (fun r => r.key = u.key) then (table, none)
  else (table ++ [rowOfNewUtxo u], some u.income_pending_ledger_tx_id)

/-- Modelled from the spec: the caller of `persist_utxo` posts
`INCOMING_UTXO` with the returned id as the ledger transaction's
correlation id, and only when an id was returned ("Caller posts
INCOMING_UTXO using the returned id as the ledger transaction's
correlation id", §4.4); the calling job handler is not under src/.
State: the utxo table plus the list of posted correlation ids. -/
def handleNewUtxo (st : List UtxoRow × List LedgerTransactionId) (u : NewUtxo) :
    List UtxoRow × List LedgerTransactionId :=
  match persist_utxo st.1 u with
  | (t, some id) => (t, st.2 ++ [id])
  | (t, none) => (t, st.2)

/-! ### Wallet balance summary (src/wallet/balance.rs) -/

/-- sqlx-ledger `AccountBalance`: a decimal figure per layer
(rust_decimal `Decimal` is embedded as ℚ). -/
structure AccountBalance where
  settled : ℚ
  pending : ℚ
  encumbered : ℚ
deriving DecidableEq, Repr

/-- `WalletLedgerAccountBalances`: the five optional per-wallet ledger
account balances. -/
structure WalletLedgerAccountBalances where
  incoming : Option AccountBalance
  at_rest : Option AccountBalance
  fee : Option AccountBalance
  outgoing : Option AccountBalance
  dust : Option AccountBalance
deriving DecidableEq, Repr

/-- Satoshi amounts (integer sats). -/
abbrev Satoshis := ℤ

/-- Modelled from the spec: `Satoshis` holds integer sats with btc
decimal conversions ("`Satoshis` (integer-sat + btc decimal
conversions)", §2 C1); src/primitives.rs is not under src/.  `from_btc`
scales BTC by 10^8 and truncates to an integer sat count. -/
def Satoshis.from_btc (d : ℚ) : Satoshis := ⌊d * 100000000⌋

/-- `WalletBalanceSummary`: the custodial quantities a wallet balance
exposes. -/
structure WalletBalanceSummary where
  current_settled : Satoshis
  pending_incoming : Satoshis
  pending_outgoing : Satoshis
  pending_fees : Satoshis
  encumbered_fees : Satoshis
  encumbered_outgoing : Satoshis
deriving DecidableEq, Repr

/-- `From<WalletLedgerAccountBalances> for WalletBalanceSummary`
(src/wallet/balance.rs): current_settled clamps a negative settled
balance to zero; absent balances count as zero. -/
def walletBalanceSummary (balances : WalletLedgerAccountBalances) :
    WalletBalanceSummary :=
  { current_settled := Satoshis.from_btc
      ((balances.at_rest.map (fun b =>
          if b.settled < 0 then 0 else b.settled)).getD 0),
    pending_incoming := Satoshis.from_btc
      ((balances.incoming.map AccountBalance.pending).getD 0),
    pending_outgoing := Satoshis.from_btc
      ((balances.outgoing.map AccountBalance.pending).getD 0),
    pending_fees := Satoshis.from_btc
      ((balances.fee.map AccountBalance.pending).getD 0),
    encumbered_fees := Satoshis.from_btc
      ((balances.fee.map AccountBalance.encumbered).getD 0),
    encumbered_outgoing := Satoshis.from_btc
      ((balances.outgoing.map AccountBalance.encumbered).getD 0) }

/-! ### Per-wallet ledger account creation (src/ledger/mod.rs) -/

/-- A ledger account actually created through `accounts().create_in_tx`. -/
structure CreatedLedgerAccount where
  id : Nat
  code : String
  name : String
deriving DecidableEq, Repr

/-- Ledger-side state within the transaction: the created accounts plus
an id allocator (fresh UUIDs are modelled by a counter). -/
structure LedgerState where
  accounts : List CreatedLedgerAccount
  nextId : Nat
deriving DecidableEq, Repr

/-- `Ledger::create_account_for_wallet`: builds a `NewLedgerAccount` and
creates it in the ledger within the transaction, returning its id. -/
def create_account_for_wallet (st : LedgerState)
    (wallet_code wallet_name : String) : LedgerState × Nat :=
  ({ accounts := st.accounts ++
      [{ id := st.nextId, code := wallet_code, name := wallet_name }],
     nextId := st.nextId + 1 }, st.nextId)

/-- `LedgerAccountId::new()`: allocates a fresh uuid; creates no ledger
account. -/
def freshLedgerAccountId (st : LedgerState) : LedgerState × Nat :=
  ({ st with nextId := st.nextId + 1 }, st.nextId)

/-- The five ids returned by `create_ledger_accounts_for_wallet`. -/
structure LedgerAccountIdsForWallet where
  incoming_id : Nat
  at_rest_id : Nat
  fee_id : Nat
  outgoing_id : Nat
  dust_id : Nat
deriving DecidableEq, Repr

/-- `Ledger::create_ledger_accounts_for_wallet` (src/ledger/mod.rs):
creates the `WALLET_<id>_INCOMING` account, takes bare
`LedgerAccountId::new()` ids for at_rest, fee and outgoing, and creates
the `WALLET_<id>_DUST` account. -/
def create_ledger_accounts_for_wallet (st : LedgerState) (wallet_id : String) :
    LedgerState × LedgerAccountIdsForWallet :=
  let s1 := create_account_for_wallet st
    ("WALLET_" ++ wallet_id ++ "_INCOMING") (wallet_id ++ "-incoming")
  let s2 := freshLedgerAccountId s1.1
  let s3 := freshLedgerAccountId s2.1
  let s4 := freshLedgerAccountId s3.1
  let s5 := create_account_for_wallet s4.1
    ("WALLET_" ++ wallet_id ++ "_DUST") (wallet_id ++ "-dust")
  (s5.1, { incoming_id := s1.2, at_rest_id := s2.2, fee_id := s3.2,
           outgoing_id := s4.2, dust_id := s5.2 })

/-! ### Batch signing job (src/job/batch_signing.rs) -/

/-- An xpub reference (fingerprint) inside a wallet's keychain config. -/
abbrev XPubRef := Nat

/-- A `NewSigningSession` as built by the signing job. -/
structure NewSigningSession where
  account_id : Nat
  batch_id : Nat
  wallet_id : Nat
  keychain_id : Nat
  xpub : XPubRef
  unsigned_psbt : String
deriving DecidableEq, Repr

/-- Modelled from the spec: a wallet resolves the xpubs used per
keychain ("ask the wallet for the xpubs per keychain used", §4.7);
src/wallet/entity.rs is not under src/. -/
structure Wallet where
  id : Nat
  keychain_xpubs : List (Nat × List XPubRef)
deriving DecidableEq, Repr

/-- `Wallet::xpubs_for_keychains`: the wallet's (keychain, xpubs) pairs
restricted to the requested keychain ids. -/
def xpubs_for_keychains (w : Wallet) (ks : List Nat) :
    List (Nat × List XPubRef) :=
  w.keychain_xpubs.filter (fun kx => kx.1 ∈ ks)

/-- A batch as the signing job reads it: unsigned PSBT and the included
UTXOs grouped by wallet and keychain. -/
structure Batch where
  id : Nat
  unsigned_psbt : String
  included_utxos : List (Nat × List (Nat × List OutPoint))
deriving DecidableEq, Repr

/-- The `NewSigningSession` values the first run of the signing job
builds: one per (wallet, keychain, xpub) covered by the batch's included
UTXOs, carrying the account, batch, wallet, keychain, xpub and the
batch's unsigned PSBT (the loop body of `execute`). -/
def batchSigningBuiltSessions (wallets : List Wallet) (batch : Batch)
    (account_id : Nat) : List NewSigningSession :=
  batch.included_utxos.flatMap (fun wk =>
    match wallets.find? (fun w => w.id = wk.1) with
    | none => []
    | some w =>
      (xpubs_for_keychains w (wk.2.map Prod.fst)).flatMap (fun kx =>
        kx.2.map (fun x =>
          { account_id := account_id, batch_id := batch.id,
            wallet_id := wk.1, keychain_id := kx.1, xpub := x,
            unsigned_psbt := batch.unsigned_psbt })))

/-- `SigningSessions::find_for_batch` over the store of persisted
sessions: the sessions with the given account and batch, or none if
there are none. -/
def find_for_batch (store : List NewSigningSession)
    (account_id batch_id : Nat) : Option (List NewSigningSession) :=
  let xs := store.filter (fun s =>
    s.account_id = account_id ∧ s.batch_id = batch_id)
  if xs.isEmpty then none else some xs

/-- `job/batch_signing.rs::execute`, state-passing over the session
store: when no sessions exist for (account, batch), the job builds the
`NewSigningSession` values (see `batchSigningBuiltSessions`) — and then
drops them: no session is written to the store before the job returns
its data. -/
def batch_signing_execute (store : List NewSigningSession)
    (wallets : List Wallet) (batch : Batch) (account_id batch_id : Nat) :
    List NewSigningSession × (Nat × Nat) :=
  match find_for_batch store account_id batch_id with
  | some _existing => (store, (account_id, batch_id))
  | none =>
    let _new_sessions := batchSigningBuiltSessions wallets batch account_id
    (store, (account_id, batch_id))

/-! ### Payout repository (src/payout/repo.rs) -/

/-- A row of the `payouts` table; payouts are versioned, updates append
a row with the same id and a higher version. -/
structure PayoutRow where
  id : Nat
  version : Nat
  account_id : Nat
  batch_group_id : Nat
  wallet_id : Nat
  satoshis : Nat
  destination_data : String
  batch_id : Option Nat
  priority : Nat
  created_at : Nat
deriving DecidableEq, Repr

/-- The rows the `latest` CTE ranges over: the group's rows with
`batch_id IS NULL`. -/
def unbatchedRows (t : List PayoutRow) (g : Nat) : List PayoutRow :=
  t.filter (fun r => r.batch_group_id = g ∧ r.batch_id = none)

/-- `MAX(version) OVER (PARTITION BY id ...)` within the CTE: the
largest version among the id's unbatched rows of the group. -/
def maxUnbatchedVersion (t : List PayoutRow) (g i : Nat) : Nat :=
  (((unbatchedRows t g).filter (fun r => r.id = i)).map
    PayoutRow.version).foldr max 0

/-- The outer `WHERE (id, version) IN (SELECT * FROM latest)` test. -/
def inLatest (t : List PayoutRow) (g : Nat) (r : PayoutRow) : Bool :=
  (unbatchedRows t g).any (fun s => s.id = r.id) &&
    (r.version = maxUnbatchedVersion t g r.id)

/-- The `ORDER BY priority, created_at` ordering. -/
def payoutOrder (a b : PayoutRow) : Prop :=
  a.priority < b.priority ∨
    (a.priority = b.priority ∧ a.created_at ≤ b.created_at)

instance : DecidableRel payoutOrder := fun a b => by
  unfold payoutOrder
  infer_instance

instance : IsTotal PayoutRow payoutOrder :=
  ⟨fun a b => by unfold payoutOrder; omega⟩

instance : IsTrans PayoutRow payoutOrder :=
  ⟨fun a b c hab hbc => by unfold payoutOrder at hab hbc ⊢; omega⟩

/-- `Payouts::list_unbatched`: one row per id — the one at the largest
unbatched version of the group — ordered by (priority, created_at).  The
SQL `ORDER BY` is embedded as a sort by `payoutOrder`. -/
def list_unbatched (t : List PayoutRow) (g : Nat) : List PayoutRow :=
  List.insertionSort payoutOrder (t.filter (inLatest t g))

/-- The primary-key projection of a payout row. -/
def payoutKey (r : PayoutRow) : Nat × Nat := (r.id, r.version)

/-- A concrete payouts table: id 1 has two unbatched versions, id 2 one,
id 3 is batched, id 4 belongs to another group. -/
def samplePayouts : List PayoutRow := [
  { id := 1, version := 1, account_id := 0, batch_group_id := 5,
    wallet_id := 0, satoshis := 100, destination_data := "d1",
    batch_id := none, priority := 1, created_at := 10 },
  { id := 1, version := 2, account_id := 0, batch_group_id := 5,
    wallet_id := 0, satoshis := 150, destination_data := "d1b",
    batch_id := none, priority := 1, created_at := 10 },
  { id := 2, version := 1, account_id := 0, batch_group_id := 5,
    wallet_id := 0, satoshis := 200, destination_data := "d2",
    batch_id := none, priority := 0, created_at := 11 },
  { id := 3, version := 1, account_id := 0, batch_group_id := 5,
    wallet_id := 0, satoshis := 300, destination_data := "d3",
    batch_id := some 9, priority := 0, created_at := 1 },
  { id := 4, version := 1, account_id := 0, batch_group_id := 6,
    wallet_id := 0, satoshis := 400, destination_data := "d4",
    batch_id := none, priority := 0, created_at := 2 }
]

/-! ### XPub entity (src/xpub/entity.rs) -/

/-- Configuration payload for an LND remote signer (opaque here). -/
structure LndSignerConfig where
  cfg : Nat
deriving DecidableEq, Repr

/-- Configuration payload for a bitcoind remote signer (opaque here). -/
structure BitcoindSignerConfig where
  cfg : Nat
deriving DecidableEq, Repr

/-- `SignerConfig`: the variant of remote signer configured for an xpub. -/
inductive SignerConfig
  | Lnd (cfg : LndSignerConfig)
  | Bitcoind (cfg : BitcoindSignerConfig)
deriving DecidableEq, Repr

/-- A BIP32 fingerprint, abstracted as a number. -/
abbrev Fingerprint := Nat

/-- A BIP32 derivation path, abstracted as a list of child indices. -/
abbrev DerivationPath := List Nat

/-- `bitcoin::ExtendedPubKey`, reduced to a value type: key material is
opaque; the fingerprint and parent fingerprint are what the entity
reads. -/
structure ExtendedPubKey where
  key : Nat
  fingerprint : Fingerprint
  parent_fingerprint : Fingerprint
deriving DecidableEq, Repr

/-- `XPubValue`: an extended public key plus its optional derivation
path. -/
structure XPubValue where
  inner : ExtendedPubKey
  derivation : Option DerivationPath
deriving DecidableEq, Repr

/-- Modelled from the spec: an xpub's identity is its fingerprint
("Identity: fingerprint", §3); src/xpub/value.rs is not under src/. -/
def XPubValue.id (v : XPubValue) : Fingerprint := v.inner.fingerprint

/-- `XPubEvent`: the xpub entity's event variants. -/
inductive XPubEvent
  | XpubInitialized (db_uuid : Nat) (account_id : Nat)
      (fingerprint : Fingerprint) (parent_fingerprint : Fingerprint)
      (original : String) (xpub : ExtendedPubKey)
      (derivation_path : Option DerivationPath)
  | XpubNameUpdated (name : String)
  | SignerConfigUpdated (config : SignerConfig)
deriving DecidableEq, Repr

/-- The rehydrated `AccountXPub` entity with its event log. -/
structure AccountXPub where
  account_id : Nat
  key_name : String
  value : XPubValue
  db_uuid : Nat
  events : List XPubEvent
deriving DecidableEq, Repr

/-- `AccountXPub::id()`: the fingerprint of the xpub value. -/
def AccountXPub.id (x : AccountXPub) : Fingerprint := x.value.id

/-- The config carried by a `SignerConfigUpdated` event, none otherwise. -/
def cfgOfEvent : XPubEvent → Option SignerConfig
  | .SignerConfigUpdated c => some c
  | _ => none

/-- `AccountXPub::signing_cfg`: scan the event log, keeping the config of
the last `SignerConfigUpdated` event seen. -/
def signing_cfg (x : AccountXPub) : Option SignerConfig :=
  x.events.foldl
    (fun ret e =>
      match e with
      | .SignerConfigUpdated c => some c
      | _ => ret)
    none

/-- A connected remote signing client; the transports' `connect` calls
are abstracted into the constructors. -/
inductive RemoteSigningClientValue
  | lnd (cfg : LndSignerConfig)
  | bitcoind (cfg : BitcoindSignerConfig)
deriving DecidableEq, Repr

/-- `AccountXPub::remote_signing_client`: match on the resolved signer
config, connecting the corresponding transport, or none when no signer
is configured. -/
def remote_signing_client (x : AccountXPub) : Option RemoteSigningClientValue :=
  match signing_cfg x with
  | some (.Lnd cfg) => some (.lnd cfg)
  | some (.Bitcoind cfg) => some (.bitcoind cfg)
  | none => none

/-- The client built for a given signer config. -/
def connectClient : SignerConfig → RemoteSigningClientValue
  | .Lnd cfg => .lnd cfg
  | .Bitcoind cfg => .bitcoind cfg

/-- `NewAccountXPub`: the not-yet-persisted xpub registration. -/
structure NewAccountXPub where
  db_uuid : Nat
  account_id : Nat
  key_name : String
  original : String
  value : XPubValue
deriving DecidableEq, Repr

/-- `NewAccountXPub::initial_events`: `XpubInitialized` (fields taken
from the xpub value) followed by `XpubNameUpdated`. -/
def initial_events (n : NewAccountXPub) : List XPubEvent :=
  [ .XpubInitialized n.db_uuid n.account_id n.value.inner.fingerprint
      n.value.inner.parent_fingerprint n.original n.value.inner
      n.value.derivation,
    .XpubNameUpdated n.key_name ]

/-- The rehydration builder (derive_builder's `AccountXPubBuilder`). -/
structure XPubBuilder where
  db_uuid : Option Nat
  account_id : Option Nat
  value : Option XPubValue
  key_name : Option String
deriving DecidableEq, Repr

/-- One step of `TryFrom<EntityEvents<XPubEvent>> for AccountXPub`:
`XpubInitialized` sets db_uuid, account_id and the xpub value;
`XpubNameUpdated` sets the key name; other events are skipped. -/
def applyXPubEvent (b : XPubBuilder) : XPubEvent → XPubBuilder
  | .XpubInitialized du aid _fp _pfp _orig xpub dp =>
    { b with db_uuid := some du, account_id := some aid,
             value := some ⟨xpub, dp⟩ }
  | .XpubNameUpdated name => { b with key_name := some name }
  | .SignerConfigUpdated _ => b

/-- `TryFrom<EntityEvents<XPubEvent>> for AccountXPub`: fold the events
into the builder and build, failing if a required field was never set. -/
def account_xpub_try_from (events : List XPubEvent) : Option AccountXPub :=
  let b := events.foldl applyXPubEvent ⟨none, none, none, none⟩
  match b.db_uuid, b.account_id, b.value, b.key_name with
  | some du, some aid, some v, some kn =>
    some { account_id := aid, key_name := kn, value := v,
           db_uuid := du, events := events }
  | _, _, _, _ => none

/-- A concrete `NewUtxo` for evaluating `persist_utxo`. -/
def sampleNewUtxo : NewUtxo :=
  { wallet_id := 1, keychain_id := 2, outpoint := ⟨"aa", 0⟩,
    sats_per_vbyte_when_created := 1, kind := .external, address_idx := 0,
    value := 100000000, address := "addr1", script_hex := "51",
    spent := false, income_pending_ledger_tx_id := 7 }

/-- A second `NewUtxo` with the same (keychain, txid, vout) key but a
different fresh pending ledger tx id. -/
def sampleNewUtxo2 : NewUtxo :=
  { sampleNewUtxo with income_pending_ledger_tx_id := 8 }

/-- A concrete wallet for evaluating the signing job: one keychain (7)
over one xpub (42). -/
def sampleWallet : Wallet := ⟨1, [(7, [42])]⟩

/-- A concrete batch for evaluating the signing job: one included UTXO
of wallet 1 on keychain 7. -/
def sampleBatch : Batch := ⟨9, "psbt0", [(1, [(7, [⟨"cc", 0⟩])])]⟩

/-! ### Theorems -/

/-- C1: the `CREATE_BATCH` template consists of exactly the 16 entries of
the spec's table: position by position the account, direction, layer, BTC
currency and units expression are as the spec states. -/
theorem create_batch_matches_spec_table :
    createBatchEntries.map entryView = createBatchSpecRows ∧
      createBatchEntries.length = 16 := by
  constructor <;> rfl

/-- C2: for every parameter valuation, both batch templates balance:
in BTC, within each layer the debit units sum to the credit units sum
(so the ENCUMBERED, PENDING and SETTLED entries each net to zero). -/
theorem batch_templates_balance_per_layer (p : String → ℚ) (l : Layer) :
    dirLayerTotal createBatchEntries p "BTC" .DEBIT l =
        dirLayerTotal createBatchEntries p "BTC" .CREDIT l ∧
      dirLayerTotal batchCreatedEntries p "BTC" .DEBIT l =
        dirLayerTotal batchCreatedEntries p "BTC" .CREDIT l := by
  cases l <;>
    constructor <;>
      simp [dirLayerTotal, createBatchEntries, batchCreatedEntries, evalUnits,
        List.filter, evalUnits]

/-- C10: under the correspondence total_spent = total_utxo_in − change − fees,
reserved_fees = encumbered_fees and total_in = total_utxo_in, the
`CREATE_BATCH` and `BATCH_CREATED` templates produce the same multiset of
(account, direction, layer, evaluated units) entries. -/
theorem create_batch_equiv_batch_created (p : String → ℚ)
    (h_in : p "total_in" = p "total_utxo_in")
    (h_spent : p "total_spent" = p "total_utxo_in" - p "change" - p "fees")
    (h_res : p "reserved_fees" = p "encumbered_fees") :
    (↑(createBatchEntries.map (entryEval p)) : Multiset (AccountExpr × Direction × Layer × ℚ)) =
      ↑(batchCreatedEntries.map (entryEval p)) := by
  have h : createBatchEntries.map (entryEval p) = batchCreatedEntries.map (entryEval p) := by
    simp only [createBatchEntries, batchCreatedEntries, entryEval, evalUnits,
      List.map_cons, List.map_nil, List.cons.injEq, Prod.mk.injEq, and_true, true_and]
    refine ⟨?_, ?_, ?_, ?_, ?_, ?_, ?_, ?_, ?_, ?_⟩ <;>
      simp [h_in, h_spent, h_res]
  exact congrArg _ h

/-- Witness for C10 at the concrete valuation `sampleValuation`. -/
theorem create_batch_equiv_batch_created_witness :
    (sampleValuation "total_in" = sampleValuation "total_utxo_in" ∧
      sampleValuation "total_spent" =
        sampleValuation "total_utxo_in" - sampleValuation "change" - sampleValuation "fees" ∧
      sampleValuation "reserved_fees" = sampleValuation "encumbered_fees") ∧
    (↑(createBatchEntries.map (entryEval sampleValuation)) :
        Multiset (AccountExpr × Direction × Layer × ℚ)) =
      ↑(batchCreatedEntries.map (entryEval sampleValuation)) :=
  ⟨⟨by simp [sampleValuation], by simp [sampleValuation]; norm_num,
      by simp [sampleValuation]⟩,
    create_batch_equiv_batch_created sampleValuation (by simp [sampleValuation])
      (by simp [sampleValuation]; norm_num) (by simp [sampleValuation])⟩

/-- The inserted row keeps the `NewUtxo`'s conflict key. -/
theorem rowOfNewUtxo_key (u : NewUtxo) : (rowOfNewUtxo u).key = u.key := rfl

/-- C3: `persist_utxo` is idempotent and at-most-once: it returns the new
pending ledger tx id exactly when the key was absent (a row was actually
inserted, appended with `pending_ledger_tx_id` = the new id); when the key
exists it returns none and leaves the table unchanged; every second call
with the same (keychain_id, tx_id, vout) key returns none, changes
nothing, and the caller posts no second `INCOMING_UTXO`. -/
theorem persist_utxo_at_most_once (table : List UtxoRow)
    (posts : List LedgerTransactionId) (u u2 : NewUtxo)
    (hkey : u2.key = u.key) :
    ((persist_utxo table u).2 = some u.income_pending_ledger_tx_id ↔
        table.any (fun r => r.key = u.key) = false) ∧
      (table.any (fun r => r.key = u.key) = true →
        persist_utxo table u = (table, none)) ∧
      (table.any (fun r => r.key = u.key) = false →
        (persist_utxo table u).1 = table ++ [rowOfNewUtxo u]) ∧
      persist_utxo (persist_utxo table u).1 u2 =
        ((persist_utxo table u).1, none) ∧
      (handleNewUtxo (handleNewUtxo (table, posts) u) u2).2 =
        (handleNewUtxo (table, posts) u).2 := by
  by_cases h : table.any (fun r => r.key = u.key)
  · simp [persist_utxo, handleNewUtxo, h, hkey]
  · simp [persist_utxo, handleNewUtxo, h, hkey, rowOfNewUtxo_key]

/-- Witness for C3 on the empty table with two inserts of the same key. -/
theorem persist_utxo_at_most_once_witness :
    sampleNewUtxo2.key = sampleNewUtxo.key ∧
    (((persist_utxo [] sampleNewUtxo).2 =
          some sampleNewUtxo.income_pending_ledger_tx_id ↔
        List.any ([] : List UtxoRow) (fun r => r.key = sampleNewUtxo.key) = false) ∧
      (List.any ([] : List UtxoRow) (fun r => r.key = sampleNewUtxo.key) = true →
        persist_utxo [] sampleNewUtxo = ([], none)) ∧
      (List.any ([] : List UtxoRow) (fun r => r.key = sampleNewUtxo.key) = false →
        (persist_utxo [] sampleNewUtxo).1 = [] ++ [rowOfNewUtxo sampleNewUtxo]) ∧
      persist_utxo (persist_utxo [] sampleNewUtxo).1 sampleNewUtxo2 =
        ((persist_utxo [] sampleNewUtxo).1, none) ∧
      (handleNewUtxo (handleNewUtxo ([], []) sampleNewUtxo) sampleNewUtxo2).2 =
        (handleNewUtxo ([], []) sampleNewUtxo).2) :=
  ⟨rfl, persist_utxo_at_most_once [] [] sampleNewUtxo sampleNewUtxo2 rfl⟩

/-- C9: the wallet balance summary never reports a negative
current_settled: the conversion clamps a negative settled balance to
zero and treats an absent balance as zero. -/
theorem current_settled_nonneg (balances : WalletLedgerAccountBalances) :
    0 ≤ (walletBalanceSummary balances).current_settled := by
  have h : 0 ≤ (balances.at_rest.map (fun b =>
      if b.settled < 0 then 0 else b.settled)).getD 0 := by
    cases balances.at_rest with
    | none => simp
    | some b =>
      simp only [Option.map_some', Option.getD_some]
      split
      · exact le_refl 0
      · exact le_of_not_lt (by assumption)
  exact Int.floor_nonneg.mpr (mul_nonneg h (by norm_num))

/-- C5 (code evidence): `create_ledger_accounts_for_wallet` creates only
the `WALLET_<id>_INCOMING` and `WALLET_<id>_DUST` ledger accounts; the
returned at_rest, fee and outgoing ids are freshly allocated ids for
which no ledger account is created in the transaction. -/
theorem create_ledger_accounts_only_incoming_and_dust :
    (create_ledger_accounts_for_wallet ⟨[], 0⟩ "w1").1.accounts.map
        CreatedLedgerAccount.id =
      [(create_ledger_accounts_for_wallet ⟨[], 0⟩ "w1").2.incoming_id,
        (create_ledger_accounts_for_wallet ⟨[], 0⟩ "w1").2.dust_id] ∧
    (create_ledger_accounts_for_wallet ⟨[], 0⟩ "w1").1.accounts.map
        CreatedLedgerAccount.code =
      ["WALLET_w1_INCOMING", "WALLET_w1_DUST"] ∧
    (create_ledger_accounts_for_wallet ⟨[], 0⟩ "w1").1.accounts.filter
        (fun a =>
          a.id = (create_ledger_accounts_for_wallet ⟨[], 0⟩ "w1").2.at_rest_id ∨
          a.id = (create_ledger_accounts_for_wallet ⟨[], 0⟩ "w1").2.fee_id ∨
          a.id = (create_ledger_accounts_for_wallet ⟨[], 0⟩ "w1").2.outgoing_id) =
      [] := by
  decide

/-- C6 (code evidence): on a first run (no sessions for the account and
batch) the signing job builds the per-(wallet, keychain, xpub)
`NewSigningSession` carrying account, batch, wallet, keychain, xpub and
the unsigned PSBT — but persists nothing: after `execute` the store still
has no session for (account, batch). -/
theorem batch_signing_first_run_persists_nothing :
    batchSigningBuiltSessions [sampleWallet] sampleBatch 3 =
      [{ account_id := 3, batch_id := 9, wallet_id := 1, keychain_id := 7,
         xpub := 42, unsigned_psbt := "psbt0" }] ∧
    find_for_batch [] 3 9 = none ∧
    (batch_signing_execute [] [sampleWallet] sampleBatch 3 9).1 = [] ∧
    find_for_batch (batch_signing_execute [] [sampleWallet] sampleBatch 3 9).1
        3 9 = none := by
  decide

/-- The `signing_cfg` fold resolves to the last configured signer, or to
its accumulator when no `SignerConfigUpdated` event occurs. -/
theorem signing_cfg_foldl (l : List XPubEvent) (acc : Option SignerConfig) :
    l.foldl
        (fun ret e =>
          match e with
          | .SignerConfigUpdated c => some c
          | _ => ret)
        acc =
      ((l.filterMap cfgOfEvent).getLast?).or acc := by
  induction l generalizing acc with
  | nil => simp
  | cons e l ih =>
    cases e with
    | XpubInitialized du aid fp pfp orig xpub dp =>
      simpa [cfgOfEvent] using ih acc
    | XpubNameUpdated name =>
      simpa [cfgOfEvent] using ih acc
    | SignerConfigUpdated c =>
      rw [List.foldl_cons]
      rw [ih (some c)]
      simp only [List.filterMap_cons, cfgOfEvent]
      cases h : (l.filterMap cfgOfEvent).getLast? with
      | none =>
        have : l.filterMap cfgOfEvent = [] := List.getLast?_eq_none_iff.mp h
        simp [this]
      | some d =>
        have hne : l.filterMap cfgOfEvent ≠ [] := by
          intro hnil
          rw [hnil] at h
          simp at h
        obtain ⟨y, ys, hys⟩ := List.exists_cons_of_ne_nil hne
        rw [hys] at h ⊢
        simp [List.getLast?_cons_cons, h]

/-- `signing_cfg` is the config of the last `SignerConfigUpdated` event. -/
theorem signing_cfg_eq_getLast (x : AccountXPub) :
    signing_cfg x = (x.events.filterMap cfgOfEvent).getLast? := by
  rw [signing_cfg, signing_cfg_foldl]
  simp

/-- C7: `remote_signing_client` connects the client built from the most
recent `SignerConfigUpdated` event's config (the last one in the log
wins), and returns none exactly when the log contains no
`SignerConfigUpdated` event. -/
theorem remote_signing_client_resolves_latest (x : AccountXPub) :
    remote_signing_client x =
        ((x.events.filterMap cfgOfEvent).getLast?).map connectClient ∧
      (remote_signing_client x = none ↔
        ∀ e ∈ x.events, cfgOfEvent e = none) := by
  have hcfg := signing_cfg_eq_getLast x
  constructor
  · rw [remote_signing_client, hcfg]
    cases h : (x.events.filterMap cfgOfEvent).getLast? with
    | none => simp
    | some c => cases c <;> simp [connectClient]
  · rw [remote_signing_client, hcfg]
    cases h : (x.events.filterMap cfgOfEvent).getLast? with
    | none =>
      have hall : ∀ e ∈ x.events, cfgOfEvent e = none := by
        simpa [List.filterMap_eq_nil_iff] using List.getLast?_eq_none_iff.mp h
      simpa using hall
    | some c =>
      have hne : x.events.filterMap cfgOfEvent ≠ [] := by
        intro hnil
        rw [hnil] at h
        simp at h
      rw [ne_eq, List.filterMap_eq_nil_iff] at hne
      push_neg at hne
      obtain ⟨e, he, hcfg2⟩ := hne
      cases c <;> simp <;> exact ⟨e, he, hcfg2⟩

/-- Folding `SignerConfigUpdated` events leaves the rehydration builder
unchanged. -/
theorem foldl_builder_ignores_signer_events (b : XPubBuilder)
    (cfgs : List SignerConfig) :
    (cfgs.map XPubEvent.SignerConfigUpdated).foldl applyXPubEvent b = b := by
  induction cfgs generalizing b with
  | nil => rfl
  | cons c cfgs ih =>
    rw [List.map_cons, List.foldl_cons]
    exact ih b

/-- C8: round-trip: rehydrating from `initial_events` plus any appended
`SignerConfigUpdated` events succeeds and yields an entity with the same
xpub value — hence identical fingerprint (id) and derivation path — whose
resolved signer config is the last one set. -/
theorem account_xpub_roundtrip (n : NewAccountXPub)
    (cfgs : List SignerConfig) :
    ∃ x, account_xpub_try_from
          (initial_events n ++ cfgs.map XPubEvent.SignerConfigUpdated) =
        some x ∧
      x.value = n.value ∧
      x.id = n.value.id ∧
      x.value.derivation = n.value.derivation ∧
      signing_cfg x = cfgs.getLast? := by
  have hb : (initial_events n ++ cfgs.map XPubEvent.SignerConfigUpdated).foldl
      applyXPubEvent ⟨none, none, none, none⟩ =
      ⟨some n.db_uuid, some n.account_id, some n.value, some n.key_name⟩ := by
    rw [List.foldl_append]
    have h1 : (initial_events n).foldl applyXPubEvent ⟨none, none, none, none⟩ =
        ⟨some n.db_uuid, some n.account_id, some n.value, some n.key_name⟩ := by
      simp [initial_events, applyXPubEvent]
    rw [h1, foldl_builder_ignores_signer_events]
  refine ⟨{ account_id := n.account_id, key_name := n.key_name,
            value := n.value, db_uuid := n.db_uuid,
            events := initial_events n ++
              cfgs.map XPubEvent.SignerConfigUpdated }, ?_, rfl, rfl, rfl, ?_⟩
  · rw [account_xpub_try_from]
    simp only [hb]
  · rw [signing_cfg_eq_getLast]
    have hfm : (initial_events n ++
        cfgs.map XPubEvent.SignerConfigUpdated).filterMap cfgOfEvent = cfgs := by
      rw [List.filterMap_append]
      have h2 : (initial_events n).filterMap cfgOfEvent = [] := by
        simp [initial_events, cfgOfEvent]
      have h3 : (cfgs.map XPubEvent.SignerConfigUpdated).filterMap cfgOfEvent =
          cfgs := by
        rw [List.filterMap_map]
        have hc : cfgOfEvent ∘ XPubEvent.SignerConfigUpdated = some := rfl
        rw [hc, List.filterMap_some]
      rw [h2, h3]
      rfl
    rw [hfm]

/-- The fold of `max` over a nonempty list of naturals is attained. -/
theorem foldr_max_mem : ∀ (l : List Nat), l ≠ [] → l.foldr max 0 ∈ l
  | [], h => absurd rfl h
  | [a], _ => by simp
  | a :: b :: t, _ => by
    have ih := foldr_max_mem (b :: t) (by simp)
    rw [List.foldr_cons]
    rcases Nat.le_total a ((b :: t).foldr max 0) with h | h
    · rw [Nat.max_eq_right h]
      exact List.mem_cons_of_mem _ ih
    · rw [Nat.max_eq_left h]
      exact List.mem_cons_self a _

/-- Every member of a list of naturals is bounded by the fold of `max`. -/
theorem le_foldr_max (l : List Nat) : ∀ v ∈ l, v ≤ l.foldr max 0 := by
  induction l with
  | nil => simp
  | cons a t ih =>
    intro v hv
    rw [List.foldr_cons]
    rcases List.mem_cons.mp hv with h | h
    · subst h
      exact Nat.le_max_left _ _
    · exact le_trans (ih v h) (Nat.le_max_right _ _)

/-- Unfolding of membership in the unbatched rows of a group. -/
theorem mem_unbatchedRows {t : List PayoutRow} {g : Nat} {r : PayoutRow} :
    r ∈ unbatchedRows t g ↔
      r ∈ t ∧ r.batch_group_id = g ∧ r.batch_id = none := by
  simp [unbatchedRows]

/-- Unfolding of the latest-version membership test. -/
theorem inLatest_iff (t : List PayoutRow) (g : Nat) (r : PayoutRow) :
    inLatest t g r = true ↔
      ((∃ s ∈ unbatchedRows t g, s.id = r.id) ∧
        r.version = maxUnbatchedVersion t g r.id) := by
  simp [inLatest]

/-- The partition maximum version is attained by some unbatched row of
the same id. -/
theorem maxUnbatchedVersion_attained (t : List PayoutRow) (g : Nat)
    (s : PayoutRow) (hs : s ∈ unbatchedRows t g) :
    ∃ q ∈ unbatchedRows t g, q.id = s.id ∧
      q.version = maxUnbatchedVersion t g s.id := by
  have hmem : s ∈ (unbatchedRows t g).filter (fun r => r.id = s.id) := by
    simp [List.mem_filter, hs]
  have hne : (((unbatchedRows t g).filter (fun r => r.id = s.id)).map
      PayoutRow.version) ≠ [] := by
    intro h
    rw [List.map_eq_nil_iff] at h
    rw [h] at hmem
    simp at hmem
  have hin := foldr_max_mem _ hne
  rw [List.mem_map] at hin
  obtain ⟨q, hq, hqv⟩ := hin
  rw [List.mem_filter] at hq
  refine ⟨q, hq.1, by simpa using hq.2, ?_⟩
  rw [maxUnbatchedVersion]
  exact hqv

/-- Every unbatched row's version is bounded by its partition maximum. -/
theorem version_le_maxUnbatchedVersion (t : List PayoutRow) (g : Nat)
    (s : PayoutRow) (hs : s ∈ unbatchedRows t g) :
    s.version ≤ maxUnbatchedVersion t g s.id := by
  apply le_foldr_max
  rw [List.mem_map]
  exact ⟨s, by simp [List.mem_filter, hs], rfl⟩

/-- C4: when (id, version) is duplicate-free (the table's primary key),
`list_unbatched` returns only rows of the group with `batch_id` null at
their maximal unbatched version, exactly one row per id that has an
unbatched row (ids are returned without duplicates, and every unbatched
id is represented), ordered by (priority, created_at). -/
theorem list_unbatched_latest_per_id (t : List PayoutRow) (g : Nat)
    (hpk : (t.map payoutKey).Nodup) :
    (∀ r ∈ list_unbatched t g, r ∈ t ∧ r.batch_group_id = g ∧
        r.batch_id = none ∧
        ∀ s ∈ t, s.batch_group_id = g → s.batch_id = none → s.id = r.id →
          s.version ≤ r.version) ∧
      ((list_unbatched t g).map PayoutRow.id).Nodup ∧
      (∀ s ∈ t, s.batch_group_id = g → s.batch_id = none →
        ∃ r ∈ list_unbatched t g, r.id = s.id) ∧
      (list_unbatched t g).Pairwise payoutOrder := by
  have hperm : List.Perm (list_unbatched t g) (t.filter (inLatest t g)) :=
    List.perm_insertionSort payoutOrder _
  have hmem_res : ∀ r, r ∈ list_unbatched t g ↔
      r ∈ t ∧ inLatest t g r = true := by
    intro r
    rw [hperm.mem_iff, List.mem_filter]
  have hrow : ∀ r ∈ list_unbatched t g, r ∈ unbatchedRows t g ∧
      r.version = maxUnbatchedVersion t g r.id := by
    intro r hr
    obtain ⟨hrt, hil⟩ := (hmem_res r).mp hr
    rw [inLatest_iff] at hil
    obtain ⟨⟨s, hs, hsid⟩, hv⟩ := hil
    obtain ⟨q, hq, hqid, hqv⟩ := maxUnbatchedVersion_attained t g s hs
    have hkey : payoutKey q = payoutKey r := by
      simp only [payoutKey, Prod.mk.injEq]
      constructor
      · rw [hqid, hsid]
      · rw [hqv, hsid]
        exact hv.symm
    have hq_t : q ∈ t := (mem_unbatchedRows.mp hq).1
    have hqr : q = r := List.inj_on_of_nodup_map hpk hq_t hrt hkey
    exact ⟨hqr ▸ hq, hv⟩
  refine ⟨?_, ?_, ?_, ?_⟩
  · intro r hr
    obtain ⟨hru, hv⟩ := hrow r hr
    obtain ⟨hrt, hg, hb⟩ := mem_unbatchedRows.mp hru
    refine ⟨hrt, hg, hb, ?_⟩
    intro s hst hsg hsb hsid
    have hs : s ∈ unbatchedRows t g := mem_unbatchedRows.mpr ⟨hst, hsg, hsb⟩
    have hle := version_le_maxUnbatchedVersion t g s hs
    rw [hsid] at hle
    rw [hv]
    exact hle
  · have hsub : ((t.filter (inLatest t g)).map payoutKey).Sublist
        (t.map payoutKey) :=
      List.Sublist.map payoutKey (List.filter_sublist t)
    have hnd_filter : ((t.filter (inLatest t g)).map payoutKey).Nodup :=
      List.Nodup.sublist hsub hpk
    have hnd_res : ((list_unbatched t g).map payoutKey).Nodup :=
      ((hperm.map payoutKey).nodup_iff).mpr hnd_filter
    apply List.Nodup.map_on ?_ (List.Nodup.of_map payoutKey hnd_res)
    intro x hx y hy hid
    have hxv := (hrow x hx).2
    have hyv := (hrow y hy).2
    have hkey : payoutKey x = payoutKey y := by
      simp only [payoutKey, Prod.mk.injEq]
      refine ⟨hid, ?_⟩
      rw [hxv, hyv, hid]
    exact List.inj_on_of_nodup_map hnd_res hx hy hkey
  · intro s hst hsg hsb
    have hs : s ∈ unbatchedRows t g := mem_unbatchedRows.mpr ⟨hst, hsg, hsb⟩
    obtain ⟨q, hq, hqid, hqv⟩ := maxUnbatchedVersion_attained t g s hs
    have hq_res : q ∈ list_unbatched t g := by
      rw [hmem_res]
      refine ⟨(mem_unbatchedRows.mp hq).1, ?_⟩
      rw [inLatest_iff]
      refine ⟨⟨q, hq, rfl⟩, ?_⟩
      rw [hqv, hqid]
    exact ⟨q, hq_res, hqid⟩
  · exact List.sorted_insertionSort payoutOrder _

/-- Witness for C4 on a concrete versioned payout table. -/
theorem list_unbatched_latest_per_id_witness :
    (samplePayouts.map payoutKey).Nodup ∧
    ((∀ r ∈ list_unbatched samplePayouts 5, r ∈ samplePayouts ∧
        r.batch_group_id = 5 ∧ r.batch_id = none ∧
        ∀ s ∈ samplePayouts, s.batch_group_id = 5 → s.batch_id = none →
          s.id = r.id → s.version ≤ r.version) ∧
      ((list_unbatched samplePayouts 5).map PayoutRow.id).Nodup ∧
      (∀ s ∈ samplePayouts, s.batch_group_id = 5 → s.batch_id = none →
        ∃ r ∈ list_unbatched samplePayouts 5, r.id = s.id) ∧
      (list_unbatched samplePayouts 5).Pairwise payoutOrder) :=
  ⟨by decide, list_unbatched_latest_per_id samplePayouts 5 (by decide)⟩

end Bria
